import Mathlib

/-!
Shallow embedding of `src/typeracer_stats.py` (the typeracer-stats repository).

Python floats are modelled as `Rat`, Python ints as `Int`, Python strings as
`String`.  Fallible Python code (code that can raise) is modelled with
`Except PyError`.  The matplotlib / requests calls are external collaborators:
the graphing functions are modelled up to (but not including) the `plt` calls,
i.e. as the pure computation of the series they would plot, and the network
loader is a function parameter.
-/

/-- Python exception classes that can actually arise in the modelled code.
`attributeError` models Python `AttributeError` (missing attribute / slot),
`valueError` models `ValueError` (e.g. numpy failing to convert a string to
float), `typeError` models `TypeError` (e.g. numpy failing to convert a
`struct_time` to float), `indexError` models `IndexError` (indexing an empty
list), and `connectionError` models a `requests` network failure. -/
inductive PyError where
  | attributeError
  | valueError
  | typeError
  | indexError
  | connectionError
deriving Repr, DecidableEq

/-- Model of the Python standard library value `time.struct_time` as produced
by `time.gmtime`: the floored unix timestamp decomposed into whole days since
the epoch and the time of day (UTC).  `time.gmtime` is an external library
function, not code of this repository; only the fact that it is a pure
function of the timestamp matters to the claims. -/
structure StructTime where
  days : Int
  hour : Int
  minute : Int
  second : Int
deriving Repr, DecidableEq

/-- Model of the external library function `time.gmtime` applied to a float
timestamp: a pure function of the timestamp. -/
def gmtime (t : Rat) : StructTime :=
  let s := t.floor
  { days := s / 86400, hour := (s / 3600) % 24,
    minute := (s / 60) % 60, second := s % 60 }

/-- The `Race` class of `typeracer_stats.py`: one race, with slots
`_accuracy, _num_players, _wpm, _place, _timestamp, _time, _skill_level,
_text_id, _game_number, _points`. -/
structure Race where
  _accuracy : Rat
  _num_players : Int
  _wpm : Rat
  _place : Int
  _timestamp : Rat
  _time : StructTime
  _skill_level : String
  _text_id : Int
  _game_number : Int
  _points : Rat
deriving Repr, DecidableEq

namespace Race

/-- `Race.VALID_FIELDS` from the source (a Python set literal; modelled as the
list of its elements). -/
def VALID_FIELDS : List String :=
  ["accuracy", "num_players", "wpm", "place", "timestamp",
   "time", "skill_level", "text_id", "game_number", "points"]

/-- `Race.NUMERIC_FIELDS` from the source. -/
def NUMERIC_FIELDS : List String :=
  ["accuracy", "num_players", "wpm", "place", "timestamp",
   "text_id", "game_number", "points"]

/-- `Race.__init__`: stores each keyword argument in its slot; the `_time`
slot is derived as `time.gmtime(t)`. -/
def init (ac : Rat) (np : Int) (wpm : Rat) (r : Int) (t : Rat) (sl : String)
    (tid : Int) (gn : Int) (pts : Rat) : Race :=
  { _accuracy := ac, _num_players := np, _wpm := wpm, _place := r,
    _timestamp := t, _time := gmtime t, _skill_level := sl,
    _text_id := tid, _game_number := gn, _points := pts }

/-- The `accuracy` property. -/
def accuracy (x : Race) : Rat := x._accuracy

/-- The `num_players` property. -/
def num_players (x : Race) : Int := x._num_players

/-- The `wpm` property. -/
def wpm (x : Race) : Rat := x._wpm

/-- The `place` property. -/
def place (x : Race) : Int := x._place

/-- The `timestamp` property. -/
def timestamp (x : Race) : Rat := x._timestamp

/-- The `time` property. -/
def time (x : Race) : StructTime := x._time

/-- The `skill_level` property. -/
def skill_level (x : Race) : String := x._skill_level

/-- The `text_id` property. -/
def text_id (x : Race) : Int := x._text_id

/-- The `game_number` property. -/
def game_number (x : Race) : Int := x._game_number

/-- The `points` property. -/
def points (x : Race) : Rat := x._points

/-- `Race.is_valid_field`: membership test in `VALID_FIELDS`. -/
def is_valid_field (field : String) : Bool := VALID_FIELDS.contains field

/-- `Race.is_numeric_field`: membership test in `NUMERIC_FIELDS`. -/
def is_numeric_field (field : String) : Bool := NUMERIC_FIELDS.contains field

end Race

/-- A Python value that attribute lookup on a `Race` can produce: a number
(int or float, both modelled as `Rat`), a string, a `struct_time`, or some
other object (a class attribute such as one of the schema sets, a bound
method, or a dunder attribute inherited from `object`; `obj` carries the
attribute name it came from). -/
inductive PyVal where
  | num (q : Rat)
  | str (s : String)
  | structTime (st : StructTime)
  | obj (desc : String)
deriving Repr, DecidableEq

/-- Python attribute lookup on a `Race` instance.  Because the class declares
`__slots__`, looking up any name outside the ten slots raises
`AttributeError`; in particular there is no `_sl` slot (the skill level is
stored under `_skill_level`). -/
def Race.attrOpt (x : Race) (name : String) : Option PyVal :=
  if name = "_accuracy" then some (.num x._accuracy)
  else if name = "_num_players" then some (.num x._num_players)
  else if name = "_wpm" then some (.num x._wpm)
  else if name = "_place" then some (.num x._place)
  else if name = "_timestamp" then some (.num x._timestamp)
  else if name = "_time" then some (.structTime x._time)
  else if name = "_skill_level" then some (.str x._skill_level)
  else if name = "_text_id" then some (.num x._text_id)
  else if name = "_game_number" then some (.num x._game_number)
  else if name = "_points" then some (.num x._points)
  else none

/-- Attribute lookup as a fallible operation: `AttributeError` when the name
is not a slot of the instance. -/
def Race.getattrSlot (x : Race) (name : String) : Except PyError PyVal :=
  match x.attrOpt name with
  | some v => .ok v
  | none => .error .attributeError

/-- Rendering of a slot value inside the f-strings of `Race.__repr__`
(a stand-in for Python `repr` on the value; never reached past the sixth
field, see `Race.pyRepr`). -/
def PyVal.render : PyVal → String
  | .num q => toString q
  | .str s => s
  | .structTime st => toString (repr st)
  | .obj desc => desc

/-- `Race.__repr__` from the source: builds the tuple of f-strings in order.
The sixth f-string reads `self._sl`, which is not a slot of `Race`
(the constructor stores the skill level in `_skill_level`), so evaluating it
raises `AttributeError`. -/
def Race.pyRepr (x : Race) : Except PyError String := do
  let a1 ← x.getattrSlot "_accuracy"
  let a2 ← x.getattrSlot "_num_players"
  let a3 ← x.getattrSlot "_wpm"
  let a4 ← x.getattrSlot "_place"
  let a5 ← x.getattrSlot "_timestamp"
  let a6 ← x.getattrSlot "_sl"
  let a7 ← x.getattrSlot "_text_id"
  let a8 ← x.getattrSlot "_game_number"
  let a9 ← x.getattrSlot "_points"
  let fields := ["ac=" ++ a1.render, "np=" ++ a2.render, "wpm=" ++ a3.render,
    "r=" ++ a4.render, "t=" ++ a5.render, "sl=" ++ a6.render,
    "tid=" ++ a7.render, "gn=" ++ a8.render, "pts=" ++ a9.render]
  .ok ("Race(" ++ String.intercalate ", " fields ++ ")")

/-- The names `getattr` resolves on a `Race` beyond the properties and the
slots: the attributes of the class body (the two schema sets, the two
classmethods, `__slots__`, `__init__`, `__repr__`) and the attributes every
instance inherits from `object` (CPython).  Each resolves to a set, a bound
method, a type, or another object that a numpy float array cannot store. -/
def RACE_CLASS_ATTRS : List String :=
  ["VALID_FIELDS", "NUMERIC_FIELDS", "is_valid_field", "is_numeric_field",
   "__slots__", "__init__", "__repr__", "__class__", "__doc__", "__module__",
   "__str__", "__format__", "__hash__", "__eq__", "__ne__", "__lt__",
   "__le__", "__gt__", "__ge__", "__dir__", "__sizeof__", "__new__",
   "__delattr__", "__setattr__", "__getattribute__", "__reduce__",
   "__reduce_ex__", "__init_subclass__", "__subclasshook__"]

/-- Python `getattr(race, name)` as executed by `graph_stats` and
`graph_cumulative_average`.  Lookup resolves, in turn: the ten public
properties; the ten instance slots (so `getattr(race, "_wpm")` returns the
stored float); the class-level and `object`-inherited attributes (which
resolve to sets, methods and other objects).  Only a name found in none of
these raises `AttributeError`. -/
def Race.getattrProp (x : Race) (name : String) : Except PyError PyVal :=
  if name = "accuracy" then .ok (.num x.accuracy)
  else if name = "num_players" then .ok (.num x.num_players)
  else if name = "wpm" then .ok (.num x.wpm)
  else if name = "place" then .ok (.num x.place)
  else if name = "timestamp" then .ok (.num x.timestamp)
  else if name = "time" then .ok (.structTime x.time)
  else if name = "skill_level" then .ok (.str x.skill_level)
  else if name = "text_id" then .ok (.num x.text_id)
  else if name = "game_number" then .ok (.num x.game_number)
  else if name = "points" then .ok (.num x.points)
  else
    match x.attrOpt name with
    | some v => .ok v
    | none =>
      if RACE_CLASS_ATTRS.contains name then .ok (.obj name)
      else .error .attributeError

/-- Digits of a character run read as a natural number. -/
def digitsToNat (cs : List Char) : Nat :=
  cs.foldl (fun n c => 10 * n + (c.toNat - 48)) 0

/-- Exponent part of a Python float literal (the text after the `e`): an
optional sign followed by at least one digit and nothing else. -/
def pyParseExp (cs : List Char) : Option Int :=
  let stripped : List Char × Int :=
    match cs with
    | '+' :: rest => (rest, 1)
    | '-' :: rest => (rest, -1)
    | l => (l, 1)
  let ds := stripped.1.takeWhile Char.isDigit
  let rest := stripped.1.dropWhile Char.isDigit
  if ds.isEmpty then none
  else if rest.isEmpty then some (stripped.2 * (digitsToNat ds : Int))
  else none

/-- Model of the float conversion numpy applies when a string is assigned
into a float array cell — CPython `float(s)` on the string: an optional
sign, a decimal mantissa with an optional fractional part, and an optional
exponent.  Outside the model (whose floats are rationals): surrounding
whitespace, digit underscores, and the non-finite literals inf / nan. -/
def pyFloatParse (s : String) : Option Rat :=
  let stripped : List Char × Rat :=
    match s.data with
    | '+' :: rest => (rest, 1)
    | '-' :: rest => (rest, -1)
    | l => (l, 1)
  let sign := stripped.2
  let ip := stripped.1.takeWhile Char.isDigit
  let rest1 := stripped.1.dropWhile Char.isDigit
  let mant : Option (Rat × List Char) :=
    match rest1 with
    | '.' :: rest2 =>
      let fp := rest2.takeWhile Char.isDigit
      let rest3 := rest2.dropWhile Char.isDigit
      if ip.isEmpty && fp.isEmpty then none
      else some ((digitsToNat ip : Rat) +
        (digitsToNat fp : Rat) / (10 : Rat) ^ fp.length, rest3)
    | _ => if ip.isEmpty then none else some ((digitsToNat ip : Rat), rest1)
  match mant with
  | none => none
  | some (m, rest) =>
    match rest with
    | [] => some (sign * m)
    | c :: rest4 =>
      if c = 'e' ∨ c = 'E' then
        match pyParseExp rest4 with
        | none => none
        | some e =>
          if 0 ≤ e then some (sign * m * (10 : Rat) ^ e.toNat)
          else some (sign * m / (10 : Rat) ^ (-e).toNat)
      else none

/-- Assignment of a Python value into a numpy float array
(`stats[i] = value`): a number is stored; a string is coerced through
`float(s)` — numpy stores float-parseable strings such as `"3.5"` and
raises `ValueError` otherwise; a `struct_time` is a sequence, raising
`ValueError` (setting an array element with a sequence); any other object
(set, method, type, ...) raises `TypeError`. -/
def npFloatCoerce : PyVal → Except PyError Rat
  | .num q => .ok q
  | .str s =>
    match pyFloatParse s with
    | some q => .ok q
    | none => .error .valueError
  | .structTime _ => .error .valueError
  | .obj _ => .error .typeError

/-- One step `stats[i] = getattr(races[i], field)` of the collection loops in
`graph_stats` and `graph_cumulative_average`. -/
def getNumAttr (x : Race) (field : String) : Except PyError Rat := do
  npFloatCoerce (← x.getattrProp field)

/-- The collection loop of `graph_stats`
(`stats1[i] = getattr(races[i], xfield); stats2[i] = getattr(races[i], yfield)`
for each `i` in order), producing the two series. -/
def statsColumns : List Race → String → String → Except PyError (List Rat × List Rat)
  | [], _, _ => .ok ([], [])
  | r :: rest, xf, yf => do
    let x ← getNumAttr r xf
    let y ← getNumAttr r yf
    let (xs, ys) ← statsColumns rest xf yf
    .ok (x :: xs, y :: ys)

/-- `graph_stats` from the source, modelled up to the `plt` calls: the pair of
series it hands to the plot sink.  Note the source performs no field-name
validation; errors can only come from `getattr` or the numpy coercion. -/
def graph_stats (races : List Race) (xfield yfield : String) :
    Except PyError (List Rat × List Rat) :=
  statsColumns races xfield yfield

/-- The collection loop of `graph_cumulative_average` for the y column
(`stats2[i] = getattr(races[i], yfield)`). -/
def extractY : List Race → String → Except PyError (List Rat)
  | [], _ => .ok []
  | r :: rest, yf => do
    let y ← getNumAttr r yf
    let ys ← extractY rest yf
    .ok (y :: ys)

/-- Python list/array slice `l[a : b]`, faithful for `0 ≤ a` (every slice
taken in `graph_cumulative_average` has a non-negative start: `0`, or
`i - num` with `i ≥ num ≥ 0`, or `i - num` with `num < 0`, which only makes
the start larger). -/
def pySlice (l : List Rat) (a b : Int) : List Rat :=
  (l.drop a.toNat).take (b - a).toNat

/-- The `.mean()` of a numpy float slice: the arithmetic mean for a nonempty
slice, and NaN (modelled as `none`) for an empty slice — numpy emits a
`RuntimeWarning` but raises no exception there. -/
def npSliceMean (l : List Rat) : Option Rat :=
  if l.length = 0 then none else some (l.sum / l.length)

/-- `graph_cumulative_average` from the source, modelled up to the `plt`
calls: the x series (`game_number` of each race) and the running-average
series it hands to the plot sink.  The average loop runs `i` from `1` to
`num_races`; when `num is None or i < num` it averages `stats2[0 : i]`,
otherwise `stats2[i - num : i]`.  No validation of `yfield` or `num` is
performed. -/
def graph_cumulative_average (races : List Race) (yfield : String)
    (num : Option Int) : Except PyError (List Int × List (Option Rat)) := do
  let stats1 := races.map Race.game_number
  let stats2 ← extractY races yfield
  let averages := (List.range races.length).map (fun (j : Nat) =>
    let i : Int := (j : Int) + 1
    match num with
    | none => npSliceMean (pySlice stats2 0 i)
    | some n =>
      if i < n then npSliceMean (pySlice stats2 0 i)
      else npSliceMean (pySlice stats2 (i - n) i))
  .ok (stats1, averages)

/-- Python `str.upper().startswith("Y")`, the yes-test used by the prompts,
modelled on the underlying character sequence: the upper-cased answer
starts with the one-character prefix `Y` exactly when its first character
upper-cases to `Y`. -/
def answerIsYes (s : String) : Bool :=
  match s.data.map Char.toUpper with
  | [] => false
  | c :: _ => c = 'Y'

/-- Python `str.isnumeric()` on console input, modelled for ASCII digit
strings (nonempty, all digits), on the underlying character sequence. -/
def pyIsNumeric (s : String) : Bool :=
  !s.data.isEmpty && s.data.all Char.isDigit

/-- Python `int(s)` on a string that passed `isnumeric`: the denoted
non-negative integer. -/
def pyParseInt (s : String) : Int :=
  (s.data.foldl (fun n c => 10 * n + (c.toNat - 48)) 0 : Nat)

/-- `get_field` from the source: reads inputs until one satisfies
`Race.is_numeric_field` and returns it.  The blocking stdin stream of one
prompt session is modelled as the list of lines the operator types; a stream
that never contains a numeric field name makes the Python loop re-prompt
forever, modelled as `none` (the function never returns). -/
def get_field : List String → Option String
  | [] => none
  | s :: rest => if Race.is_numeric_field s then some s else get_field rest

/-- One delegation from the interactive session to the plot sink, recording
the arguments the session hands to the graphing function. -/
inductive PlotCall where
  | cumulative (races : List Race) (yfield : String) (num : Option Int)
  | scatter (races : List Race) (xfield : String) (yfield : String)
deriving Repr, DecidableEq

/-- The operator's console answers for one iteration of
`display_stats_loop`, in prompt order: the running-average answer, the
window-size answer (read only in running mode), the input lines fed to each
`get_field` retry loop (the x-field prompt happens only in scatter mode),
and the continue answer. -/
structure Round where
  running_answer : String
  num_answer : String
  xfield_answers : List String
  yfield_answers : List String
  continue_answer : String
deriving Repr, DecidableEq

/-- `display_stats_loop` from the source, modelled as the sequence of
graphing calls it performs, driven by the operator's answers (one `Round`
per iteration the operator is prepared to answer).  Key detail from the
source: in running-average mode the loop executes `races.reverse()` — an
IN-PLACE reversal whose effect persists into every later iteration — right
before calling `graph_cumulative_average`; the reversed list is therefore
both handed to that call and carried into the rest of the loop.  The loop
ends when a continue answer does not start with Y (or, EOF-wise, when the
rounds run out). -/
def display_stats_loop (races : List Race) : List Round → List PlotCall
  | [] => []
  | rd :: rest =>
    let is_running := answerIsYes rd.running_answer
    if is_running then
      let num : Option Int :=
        if pyIsNumeric rd.num_answer then some (pyParseInt rd.num_answer) else none
      match get_field rd.yfield_answers with
      | none => []
      | some yfield =>
        let races2 := races.reverse
        PlotCall.cumulative races2 yfield num ::
          (if answerIsYes rd.continue_answer then display_stats_loop races2 rest else [])
    else
      match get_field rd.xfield_answers with
      | none => []
      | some xfield =>
        match get_field rd.yfield_answers with
        | none => []
        | some yfield =>
          PlotCall.scatter races xfield yfield ::
            (if answerIsYes rd.continue_answer then display_stats_loop races rest else [])

/-- `get_game_count` from the source: `load_races(username, 1)[0].game_number`.
The network loader (`load_races`, an external collaborator wrapping
`requests.get`) is passed as a function; `[0]` on an empty result raises
`IndexError`. -/
def get_game_count (loader : String → Int → Except PyError (List Race))
    (username : String) : Except PyError Int :=
  match loader username 1 with
  | .error e => .error e
  | .ok [] => .error .indexError
  | .ok (r :: _) => .ok r.game_number

/-- The body of the `try` block in `main` for one username: learn the game
count, then load that many races. -/
def loadPlayer (loader : String → Int → Except PyError (List Race))
    (username : String) : Except PyError (List Race) := do
  let n ← get_game_count loader username
  loader username n

/-- What `main` does with one username: either the races are loaded (and the
stats display proceeds) or the failure is reported to stderr. -/
inductive PlayerOutcome where
  | loaded (races : List Race)
  | failed (e : PyError)
deriving Repr, DecidableEq

/-- The per-username loop of `main`: the `try/except` catches any exception
from fetching, records it, and the `for` loop proceeds to the next
username. -/
def mainLoop (loader : String → Int → Except PyError (List Race)) :
    List String → List (String × PlayerOutcome)
  | [] => []
  | u :: rest =>
    (match loadPlayer loader u with
      | .ok races => (u, PlayerOutcome.loaded races)
      | .error e => (u, PlayerOutcome.failed e)) :: mainLoop loader rest

/-- Decidable equality of modelled fallible results, so the model can be
evaluated on concrete inputs. -/
instance instDecEqExcept {e a : Type} [DecidableEq e] [DecidableEq a] :
    DecidableEq (Except e a) := fun x y =>
  match x, y with
  | .error v, .error w =>
    if h : v = w then .isTrue (by rw [h])
    else .isFalse (fun hc => h (Except.error.inj hc))
  | .ok v, .ok w =>
    if h : v = w then .isTrue (by rw [h])
    else .isFalse (fun hc => h (Except.ok.inj hc))
  | .error _, .ok _ => .isFalse (fun hc => Except.noConfusion hc)
  | .ok _, .error _ => .isFalse (fun hc => Except.noConfusion hc)

/-- Whether a modelled Python computation raised an exception. -/
def isErrorB {a : Type} : Except PyError a → Bool
  | .error _ => true
  | .ok _ => false

/-- Modelled from the spec: the arithmetic mean of a list of values. -/
def specMean (l : List Rat) : Rat := l.sum / l.length

/-- Modelled from the spec: the y-values the spec says the i-th average
(1-indexed) of the moving-average series is taken over — races `[0, i)` when
the window is unset or `i < w`, races `[i - w, i)` when the window `w` is
set and `i ≥ w`.  Stated for comparison with the code definition
`graph_cumulative_average`. -/
def specWindow (ys : List Rat) (w : Option Int) (i : Nat) : List Rat :=
  match w with
  | none => ys.take i
  | some n =>
    if (i : Int) < n then ys.take i
    else (ys.drop (i - n.toNat)).take n.toNat

/-- A concrete race used by several witnesses. -/
def demoRace : Race := Race.init (1/2) 2 100 1 0 "A" 5 7 33

/-- A concrete loader whose fetch fails for the player `alice` and succeeds
for everyone else. -/
def demoLoader : String → Int → Except PyError (List Race) :=
  fun u _ => if u = "alice" then .error .connectionError else .ok [demoRace]

/-- A concrete two-race history (oldest first), wpm values 10 and 20. -/
def demoRaces : List Race :=
  [Race.init (1/2) 2 10 1 0 "A" 5 1 3, Race.init (9/10) 3 20 1 60 "B" 6 2 4]

/-- The four-race history of the spec example (oldest first), wpm values
10, 20, 30, 40 and game numbers 1 to 4. -/
def demo4Races : List Race :=
  [Race.init (1/2) 2 10 1 0 "A" 5 1 3, Race.init (3/5) 3 20 1 60 "B" 6 2 4,
   Race.init (7/10) 2 30 1 120 "B" 7 3 5, Race.init (4/5) 4 40 2 180 "C" 8 4 6]

/-- A race with game number 1 (the older one), for the session-loop
failing input. -/
def raceGn1 : Race := Race.init (9/10) 2 50 1 0 "D" 3 1 10

/-- A race with game number 2 (the most recent one), for the session-loop
failing input. -/
def raceGn2 : Race := Race.init (4/5) 3 60 2 100 "D" 4 2 20

/-- The operator answers that drive two consecutive running-average
iterations of `display_stats_loop` (the window answer is blank in the first
round, so the first average is a lifetime average). -/
def twoRunningRounds : List Round :=
  [{ running_answer := "Y", num_answer := "", xfield_answers := [],
     yfield_answers := ["wpm"], continue_answer := "Yes" },
   { running_answer := "yes", num_answer := "5", xfield_answers := [],
     yfield_answers := ["wpm"], continue_answer := "n" }]

/-! Helper lemmas shared by several developments. -/

/-- A successful y-column extraction has one entry per race. -/
theorem extractY_length {races : List Race} {yfield : String} {ys : List Rat}
    (h : extractY races yfield = .ok ys) : ys.length = races.length := by
  induction races generalizing ys with
  | nil =>
    simp [extractY] at h
    subst h
    rfl
  | cons r rest ih =>
    simp only [extractY, bind, Except.bind] at h
    cases hx : getNumAttr r yfield with
    | error e => rw [hx] at h; exact absurd h (by simp)
    | ok x =>
      rw [hx] at h
      cases hrest : extractY rest yfield with
      | error e => rw [hrest] at h; exact absurd h (by simp)
      | ok xs =>
        rw [hrest] at h
        simp only [Except.ok.injEq] at h
        subst h
        simp [ih hrest]

/-- A field accepted by `is_numeric_field` yields a number through
`getattr` followed by the numpy float coercion. -/
theorem getNumAttr_ok_of_numeric (x : Race) {f : String}
    (hf : Race.is_numeric_field f = true) : ∃ q, getNumAttr x f = .ok q := by
  simp [Race.is_numeric_field, Race.NUMERIC_FIELDS] at hf
  rcases hf with rfl | rfl | rfl | rfl | rfl | rfl | rfl | rfl <;>
    exact ⟨_, rfl⟩

/-- C6: every field name accepted by `is_numeric_field` is also accepted by
`is_valid_field`, and `skill_level` and `time` (the derived calendar-time
field) are accepted by `is_valid_field` but rejected by `is_numeric_field`. -/
theorem c6_schema_consistency :
    (∀ f : String, Race.is_numeric_field f = true → Race.is_valid_field f = true) ∧
    Race.is_valid_field "skill_level" = true ∧
    Race.is_numeric_field "skill_level" = false ∧
    Race.is_valid_field "time" = true ∧
    Race.is_numeric_field "time" = false := by
  refine ⟨?_, by decide, by decide, by decide, by decide⟩
  intro f hf
  simp [Race.is_numeric_field, Race.NUMERIC_FIELDS] at hf
  rcases hf with rfl | rfl | rfl | rfl | rfl | rfl | rfl | rfl <;> rfl

/-- Witness for C6: its universally quantified part applied at the concrete
numeric field name `wpm`. -/
theorem c6_schema_consistency_witness : Race.is_valid_field "wpm" = true :=
  c6_schema_consistency.1 "wpm" rfl

/-- C7: each of the nine Race accessors returns exactly the value passed to
the constructor, and the derived `time` accessor is the pure function
`gmtime` of the timestamp input. -/
theorem c7_accessor_roundtrip (ac : Rat) (np : Int) (w : Rat) (r : Int)
    (t : Rat) (sl : String) (tid : Int) (gn : Int) (pts : Rat) :
    (Race.init ac np w r t sl tid gn pts).accuracy = ac ∧
    (Race.init ac np w r t sl tid gn pts).num_players = np ∧
    (Race.init ac np w r t sl tid gn pts).wpm = w ∧
    (Race.init ac np w r t sl tid gn pts).place = r ∧
    (Race.init ac np w r t sl tid gn pts).timestamp = t ∧
    (Race.init ac np w r t sl tid gn pts).skill_level = sl ∧
    (Race.init ac np w r t sl tid gn pts).text_id = tid ∧
    (Race.init ac np w r t sl tid gn pts).game_number = gn ∧
    (Race.init ac np w r t sl tid gn pts).points = pts ∧
    (Race.init ac np w r t sl tid gn pts).time = gmtime t :=
  ⟨rfl, rfl, rfl, rfl, rfl, rfl, rfl, rfl, rfl, rfl⟩

/-- C9: invoking `__repr__` on any Race raises `AttributeError`, because its
sixth f-string reads the attribute `_sl`, which is not one of the declared
slots (the skill level is stored as `_skill_level`); the documented
`Race(...)` string is never returned. -/
theorem c9_repr_always_raises (x : Race) :
    x.pyRepr = .error .attributeError := rfl

/-- C8: whenever the `get_field` prompt loop returns a field name, that name
satisfies `is_numeric_field`; and on an input stream containing no numeric
field name it never returns (re-prompts without bound), so a non-numeric
field never reaches the aggregation functions through the prompt path. -/
theorem c8_get_field_only_numeric (inputs : List String) :
    (∀ f, get_field inputs = some f → Race.is_numeric_field f = true) ∧
    ((∀ s ∈ inputs, Race.is_numeric_field s = false) → get_field inputs = none) := by
  induction inputs with
  | nil => exact ⟨fun f h => by simp [get_field] at h, fun _ => rfl⟩
  | cons s rest ih =>
    constructor
    · intro f h
      by_cases hs : Race.is_numeric_field s = true
      · rw [get_field, if_pos hs, Option.some.injEq] at h
        exact h ▸ hs
      · rw [get_field, if_neg hs] at h
        exact ih.1 f h
    · intro hall
      have hs : ¬ Race.is_numeric_field s = true := by
        simp [hall s (List.mem_cons_self s rest)]
      rw [get_field, if_neg hs]
      exact ih.2 fun x hx => hall x (List.mem_cons_of_mem s hx)

/-- Witness for C8: the prompt fed the invalid input `speed` and then the
valid input `wpm` returns `wpm`, a numeric field; fed only `skill_level` it
never returns. -/
theorem c8_get_field_only_numeric_witness :
    Race.is_numeric_field "wpm" = true ∧ get_field ["skill_level"] = none :=
  ⟨(c8_get_field_only_numeric ["speed", "wpm"]).1 "wpm" rfl,
   (c8_get_field_only_numeric ["skill_level"]).2 (by decide)⟩

/-- The per-username loop of `main` visits every username in order,
whatever the loader does. -/
theorem mainLoop_fst (loader : String → Int → Except PyError (List Race)) :
    ∀ usernames : List String,
      (mainLoop loader usernames).map Prod.fst = usernames := by
  intro usernames
  induction usernames with
  | nil => rfl
  | cons u rest ih =>
    rw [mainLoop]
    cases loadPlayer loader u <;> simpa using ih

/-- C5: a fetch/validation failure for one player is caught at the
per-player boundary of `main` — it is recorded as that player's outcome and
the loop proceeds to process every remaining username; one player's failure
never aborts the batch. -/
theorem c5_per_player_isolation (loader : String → Int → Except PyError (List Race))
    (u : String) (rest : List String) (e : PyError)
    (h : loadPlayer loader u = .error e) :
    mainLoop loader (u :: rest) = (u, PlayerOutcome.failed e) :: mainLoop loader rest ∧
    (mainLoop loader (u :: rest)).map Prod.fst = u :: rest := by
  constructor
  · rw [mainLoop, h]
  · exact mainLoop_fst loader (u :: rest)

/-- Witness for C5: with a loader that fails for `alice`, the batch
`[alice, bob]` still records an outcome for `bob`. -/
theorem c5_per_player_isolation_witness :
    mainLoop demoLoader ["alice", "bob"] =
      ("alice", PlayerOutcome.failed .connectionError) :: mainLoop demoLoader ["bob"] ∧
    (mainLoop demoLoader ["alice", "bob"]).map Prod.fst = ["alice", "bob"] :=
  c5_per_player_isolation demoLoader "alice" ["bob"] .connectionError rfl

/-- Unfolding of `graph_cumulative_average` once the y column has been
collected successfully. -/
theorem gca_ok_elim {races : List Race} {yfield : String} {ys : List Rat}
    (num : Option Int) (hy : extractY races yfield = .ok ys) :
    graph_cumulative_average races yfield num =
      .ok (races.map Race.game_number,
        (List.range races.length).map (fun (j : Nat) =>
          let i : Int := (j : Int) + 1
          match num with
          | none => npSliceMean (pySlice ys 0 i)
          | some n =>
            if i < n then npSliceMean (pySlice ys 0 i)
            else npSliceMean (pySlice ys (i - n) i))) := by
  rw [graph_cumulative_average, hy]
  rfl

/-- The mean of a one-element numpy slice is its element. -/
theorem npSliceMean_singleton (a : Rat) : npSliceMean [a] = some a := by
  simp [npSliceMean]

/-- C10: with window size 1 the running-average series equals the raw
y-values of the history, point for point (each average is the mean of
exactly the single most recent race). -/
theorem c10_window_one (races : List Race) (yfield : String)
    (ys : List Rat) (xs : List Int) (avgs : List (Option Rat))
    (hy : extractY races yfield = .ok ys)
    (h : graph_cumulative_average races yfield (some 1) = .ok (xs, avgs)) :
    avgs = ys.map some := by
  have hlen := extractY_length hy
  rw [gca_ok_elim (some 1) hy] at h
  simp only [Except.ok.injEq, Prod.mk.injEq] at h
  obtain ⟨h1, h2⟩ := h
  subst h2
  refine List.ext_getElem (by simp [hlen]) ?_
  intro i hi1 hi2
  have hiy : i < ys.length := by simp at hi2; exact hi2
  simp only [List.getElem_map, List.getElem_range]
  show (if ((i : Int) + 1) < 1 then npSliceMean (pySlice ys 0 ((i : Int) + 1))
    else npSliceMean (pySlice ys (((i : Int) + 1) - 1) ((i : Int) + 1))) = some ys[i]
  rw [if_neg (by omega)]
  have e1 : pySlice ys (((i : Int) + 1) - 1) ((i : Int) + 1) = [ys[i]] := by
    rw [pySlice]
    have ha : (((i : Int) + 1) - 1).toNat = i := by omega
    have hb : (((i : Int) + 1) - (((i : Int) + 1) - 1)).toNat = 1 := by omega
    rw [ha, hb]
    exact List.take_one_drop_eq_of_lt_length hiy
  rw [e1, npSliceMean_singleton]

/-- Witness for C10: on the concrete history with wpm `[10, 20]` and window
1, the computed averages `[some 10, some 20]` are the raw values. -/
theorem c10_window_one_witness :
    ([some 10, some 20] : List (Option Rat)) = ([10, 20] : List Rat).map some :=
  c10_window_one demoRaces "wpm" [10, 20] [1, 2] [some 10, some 20] rfl (by
    rw [gca_ok_elim (some 1) (rfl : extractY demoRaces "wpm" = .ok [10, 20])]
    norm_num [demoRaces, pySlice, npSliceMean, Race.init, Race.game_number,
      Race.wpm, List.range_succ])

/-- A nonempty numpy slice's mean is the spec's arithmetic mean. -/
theorem npSliceMean_eq_specMean {l : List Rat} (h : ¬ l.length = 0) :
    npSliceMean l = some (specMean l) := by
  rw [npSliceMean, if_neg h, specMean]

/-- C1: for every race history and field whose y column extracts, the
moving-average series has the same length as the history, its x-values are
the game numbers of the races in order, and — for an unset or positive
window — its i-th average (1-indexed) is the arithmetic mean of the
y-values over races `[0, i)` when the window is unset or `i < w`, and over
races `[i - w, i)` when the window `w` is set and `i ≥ w`. -/
theorem c1_moving_average_correct (races : List Race) (yfield : String)
    (num : Option Int) (ys : List Rat) (xs : List Int) (avgs : List (Option Rat))
    (hpos : ∀ n, num = some n → 0 < n)
    (hy : extractY races yfield = .ok ys)
    (h : graph_cumulative_average races yfield num = .ok (xs, avgs)) :
    avgs.length = races.length ∧
    xs = races.map Race.game_number ∧
    ∀ j, j < races.length →
      avgs[j]? = some (some (specMean (specWindow ys num (j + 1)))) := by
  have hlen := extractY_length hy
  rw [gca_ok_elim num hy] at h
  simp only [Except.ok.injEq, Prod.mk.injEq] at h
  obtain ⟨h1, h2⟩ := h
  subst h2
  refine ⟨by simp, h1.symm, ?_⟩
  intro j hj
  have hjy : j < ys.length := by omega
  have hb : j < ((List.range races.length).map (fun (j : Nat) =>
      let i : Int := (j : Int) + 1
      match num with
      | none => npSliceMean (pySlice ys 0 i)
      | some n =>
        if i < n then npSliceMean (pySlice ys 0 i)
        else npSliceMean (pySlice ys (i - n) i))).length := by
    simp [hj]
  rw [List.getElem?_eq_getElem hb]
  simp only [List.getElem_map, List.getElem_range]
  refine congrArg some ?_
  have etake : pySlice ys 0 ((j : Int) + 1) = ys.take (j + 1) := by
    rw [pySlice]
    have hz : ((0 : Int)).toNat = 0 := rfl
    have hcast : (((j : Int) + 1) - 0).toNat = j + 1 := by omega
    rw [hz, hcast, List.drop_zero]
  have htake_ne : ¬ (ys.take (j + 1)).length = 0 := by
    rw [List.length_take]
    omega
  cases num with
  | none =>
    show npSliceMean (pySlice ys 0 ((j : Int) + 1)) =
      some (specMean (specWindow ys none (j + 1)))
    rw [etake, specWindow, npSliceMean_eq_specMean htake_ne]
  | some n =>
    have hn : 0 < n := hpos n rfl
    show (if ((j : Int) + 1) < n then npSliceMean (pySlice ys 0 ((j : Int) + 1))
        else npSliceMean (pySlice ys (((j : Int) + 1) - n) ((j : Int) + 1))) =
      some (specMean (specWindow ys (some n) (j + 1)))
    rw [specWindow]
    by_cases hlt : ((j : Int) + 1) < n
    · rw [if_pos hlt, etake]
      have : ((j + 1 : Nat) : Int) < n := by omega
      rw [if_pos this, npSliceMean_eq_specMean htake_ne]
    · rw [if_neg hlt]
      have : ¬ ((j + 1 : Nat) : Int) < n := by omega
      rw [if_neg this]
      have edrop : pySlice ys (((j : Int) + 1) - n) ((j : Int) + 1) =
          (ys.drop (j + 1 - n.toNat)).take n.toNat := by
        rw [pySlice]
        have ha : (((j : Int) + 1) - n).toNat = j + 1 - n.toNat := by omega
        have hb2 : (((j : Int) + 1) - (((j : Int) + 1) - n)).toNat = n.toNat := by
          omega
        rw [ha, hb2]
      rw [edrop]
      refine npSliceMean_eq_specMean ?_
      simp [List.length_take, List.length_drop]
      omega

/-- Witness for C1: the spec example — wpm history `[10, 20, 30, 40]` with
window 2; the series point at index 2 is the mean 25 of the trailing window
`[20, 30]`. -/
theorem c1_moving_average_correct_witness :
    ([some 10, some 15, some 25, some 35] : List (Option Rat))[2]? =
      some (some (specMean (specWindow [10, 20, 30, 40] (some 2) 3))) :=
  (c1_moving_average_correct demo4Races "wpm" (some 2) [10, 20, 30, 40]
    [1, 2, 3, 4] [some 10, some 15, some 25, some 35]
    (fun n hn => by injection hn with h; omega) rfl
    (by
      rw [gca_ok_elim (some 2)
        (rfl : extractY demo4Races "wpm" = .ok [10, 20, 30, 40])]
      norm_num [demo4Races, pySlice, npSliceMean, Race.init, Race.game_number,
        Race.wpm, List.range_succ]
      simp only [show ((2 : Int)).toNat = 2 from rfl]
      norm_num [show List.take 2 ([10, 20, 30, 40] : List Rat) = [10, 20] from rfl,
        show List.take 2 ([20, 30, 40] : List Rat) = [20, 30] from rfl,
        show List.drop 2 ([10, 20, 30, 40] : List Rat) = [30, 40] from rfl,
        List.sum_cons, List.sum_nil, min_self])).2.2 2 (by norm_num [demo4Races])

/-- C2 counterexample: calling the moving-average computation with window 0
(not a positive integer) on a nonempty history does not fail — it returns a
full-length series whose averages are all NaN — so no InvalidArgumentError
(nor any other failure) occurs. -/
theorem c2_counterexample :
    graph_cumulative_average demoRaces "wpm" (some 0) =
      .ok ([1, 2], [none, none]) := rfl

/-- C2 amended: the moving-average computation performs no validation of the
window argument: a provided window `w ≤ 0` (zero or negative) does not
raise any error — every average is taken over an empty numpy slice and the
call succeeds with a full-length series of NaN (undefined) averages. -/
theorem c2_amended_no_validation (races : List Race) (yfield : String)
    (ys : List Rat) (n : Int) (hn : n ≤ 0)
    (hy : extractY races yfield = .ok ys) :
    graph_cumulative_average races yfield (some n) =
      .ok (races.map Race.game_number, List.replicate races.length none) := by
  rw [gca_ok_elim (some n) hy]
  refine congrArg Except.ok ?_
  refine congrArg (Prod.mk (races.map Race.game_number)) ?_
  refine List.eq_replicate_iff.2 ⟨by simp, ?_⟩
  intro b hb
  simp only [List.mem_map, List.mem_range] at hb
  obtain ⟨j, hj, rfl⟩ := hb
  show (if ((j : Int) + 1) < n then npSliceMean (pySlice ys 0 ((j : Int) + 1))
    else npSliceMean (pySlice ys (((j : Int) + 1) - n) ((j : Int) + 1))) = none
  rw [if_neg (by omega)]
  have he : pySlice ys (((j : Int) + 1) - n) ((j : Int) + 1) = [] := by
    rw [pySlice]
    have h0 : ((((j : Int) + 1)) - ((((j : Int) + 1)) - n)).toNat = 0 := by omega
    rw [h0, List.take_zero]
  rw [he]
  rfl

/-- Witness for the amended C2: on the concrete two-race history, window -3
succeeds with both averages NaN. -/
theorem c2_amended_no_validation_witness :
    graph_cumulative_average demoRaces "wpm" (some (-3)) =
      .ok (demoRaces.map Race.game_number, List.replicate demoRaces.length none) :=
  c2_amended_no_validation demoRaces "wpm" [10, 20] (-3) (by omega) rfl

/-- C3 counterexample: on the EMPTY race history the paired-series
operation succeeds (the collection loop never runs) whatever the field
names, so it does not fail with InvalidFieldError — or at all — even though
`skill_level` is not a numeric field. -/
theorem c3_counterexample :
    graph_stats [] "skill_level" "wpm" = .ok ([], []) := rfl

/-- Extracting the derived `time` attribute into a numpy float array always
raises: a `struct_time` is a sequence and cannot be stored in a float
cell. -/
theorem getNumAttr_time_error (x : Race) :
    getNumAttr x "time" = .error .valueError := rfl

/-- Extracting `skill_level` raises exactly when the stored string is not
float-parseable. -/
theorem getNumAttr_skill_level_error (x : Race)
    (h : pyFloatParse x.skill_level = none) :
    getNumAttr x "skill_level" = .error .valueError := by
  show npFloatCoerce (.str x.skill_level) = .error .valueError
  show (match pyFloatParse x.skill_level with
    | some q => (Except.ok q : Except PyError Rat)
    | none => .error .valueError) = .error .valueError
  rw [h]

/-- C3 amended: on a NONEMPTY history the paired-series operation fails when
one of the two requested names is the derived `time` field (a `struct_time`
never coerces into the float array), or is `skill_level` while the stored
skill levels are not float-parseable strings (the categorical grades the
service returns).  The failure is a numpy coercion error — the code has no
InvalidFieldError check at all — and a non-numeric name whose values do
coerce succeeds instead: the private slot names such as `_wpm`
(see `graph_stats_slot_names_succeed`) and float-parseable skill levels
(see `graph_stats_parseable_skill_level_succeeds`). -/
theorem c3_amended_nonnumeric_fields_fail (races : List Race)
    (xfield yfield : String) (hne : races ≠ [])
    (hf : xfield = "time" ∨ yfield = "time" ∨
      ((xfield = "skill_level" ∨ yfield = "skill_level") ∧
        ∀ r ∈ races, pyFloatParse r.skill_level = none)) :
    isErrorB (graph_stats races xfield yfield) = true := by
  obtain ⟨r, rest, rfl⟩ := List.exists_cons_of_ne_nil hne
  rw [graph_stats]
  have hxerr : ∀ e, getNumAttr r xfield = .error e →
      isErrorB (statsColumns (r :: rest) xfield yfield) = true := by
    intro e he
    simp only [statsColumns, bind, Except.bind, he]
    rfl
  have hyerr : ∀ e, getNumAttr r yfield = .error e →
      isErrorB (statsColumns (r :: rest) xfield yfield) = true := by
    intro e he
    cases hgx : getNumAttr r xfield with
    | error e2 => exact hxerr e2 hgx
    | ok q =>
      simp only [statsColumns, bind, Except.bind, hgx, he]
      rfl
  rcases hf with rfl | rfl | ⟨hxy, hsl⟩
  · exact hxerr _ (getNumAttr_time_error r)
  · exact hyerr _ (getNumAttr_time_error r)
  · have hr := hsl r (List.mem_cons_self r rest)
    rcases hxy with rfl | rfl
    · exact hxerr _ (getNumAttr_skill_level_error r hr)
    · exact hyerr _ (getNumAttr_skill_level_error r hr)

/-- Witness for the amended C3: one race whose skill level is the
non-float-parseable grade `A`; requesting the pair (wpm, skill_level)
raises. -/
theorem c3_amended_nonnumeric_fields_fail_witness :
    isErrorB (graph_stats [demoRace] "wpm" "skill_level") = true :=
  c3_amended_nonnumeric_fields_fail [demoRace] "wpm" "skill_level"
    (by simp)
    (Or.inr (Or.inr ⟨Or.inr rfl, by
      intro r hr
      simp only [List.mem_singleton] at hr
      subst hr
      rfl⟩))

/-- Contrast to the original C3: a non-numeric name can succeed.  `getattr`
resolves the private slot `_wpm` (and `_points`) to the stored floats and
numpy stores them, so the paired series completes without any error even
though `is_numeric_field` rejects both names. -/
theorem graph_stats_slot_names_succeed :
    Race.is_numeric_field "_wpm" = false ∧
    graph_stats [demoRace] "_wpm" "_points" = .ok ([100], [33]) :=
  ⟨by decide, rfl⟩

/-- Contrast to the original C3: a float-parseable skill level (here the
string `3`) coerces into the numpy array, so even `skill_level` does not
force a failure on every history. -/
theorem graph_stats_parseable_skill_level_succeeds :
    isErrorB (graph_stats [Race.init 1 2 100 1 0 "3" 5 7 33] "wpm"
      "skill_level") = false := rfl

/-- C4, evaluated at the failing input: a most-recent-first two-race history
(game numbers 2 then 1) and two consecutive running-average iterations.
The first iteration's in-place `races.reverse()` puts the history
oldest-to-newest, but the second iteration reverses it again, so the second
call to the moving-average computation receives the history newest-first —
its game-number sequence [2, 1] is not increasing, contradicting the
claimed per-iteration ordering invariant. -/
theorem c4_second_reverse_newest_first :
    display_stats_loop [raceGn2, raceGn1] twoRunningRounds =
      [PlotCall.cumulative [raceGn1, raceGn2] "wpm" none,
       PlotCall.cumulative [raceGn2, raceGn1] "wpm" (some 5)] ∧
    ¬ List.Sorted (fun a b => a < b) ([raceGn2, raceGn1].map Race.game_number) := by
  constructor
  · rfl
  · decide
